import Mathlib

/-!
Verification development for the LiveQuiz repository (a Flask + Socket.IO
live-polling service, `app.py`, with two load-testing harnesses
`load_test.py` and `socket_load_test.py`).

The database (PostgreSQL, four tables created in `init_db`) is modelled as
explicit lists of rows plus the SERIAL id counters.  Each HTTP route handler
becomes a pure function from the database state and the parsed JSON request
body to a result carrying the new state, the Socket.IO events emitted by the
handler (in emission order), the HTTP status code and the JSON response body.
An uncaught Python exception inside a handler (a psycopg2 foreign-key
violation on INSERT/DELETE, an `int()` conversion error, or the
closed-cursor error in `update_activity`) makes Flask answer HTTP 500; such
outcomes are modelled by the `err` constructor, still carrying the database
state and the events emitted before the exception (writes already committed
with `conn.commit()` persist).

Modelling conventions, stated once:
* SQL `TIMESTAMP` columns (`created_at`, `joined_at`, `submitted_at`,
  `started_at`, `ended_at`) and wall-clock instants are not modelled; no
  claim mentions them.  The `ORDER BY` clauses of the queries only permute
  rows, and the claims under verification are about row contents, so query
  results are kept in table order.
* Python floats (response times) are modelled as rationals `Rat`.
* JSON request fields whose Python truthiness matters are modelled by `JVal`
  (for `answer_limit` in question creation) or by `Option` types whose
  `none`/`some 0`/empty-list cases follow the same truthiness tests as the
  source.
* Read-only endpoints not involved in any claim (`get_questions`,
  `get_answers`, `get_activities`, `get_activity_stats`, `get_qrcode`) and
  the pure Socket.IO echo handlers are omitted.
-/

namespace LiveQuiz

/-- A JSON scalar as received in a request body, together with Python
truthiness and `int()` conversion, used where `app.py` tests truthiness of a
raw JSON field (`answer_limit` in `create_question`/`update_question`). -/
inductive JVal where
  | jnull
  | jint (n : Int)
  | jstr (s : String)
  | jbool (b : Bool)
deriving DecidableEq, Repr

/-- Python truthiness of a JSON scalar: `None`, `0`, `""`, `False` are falsy. -/
def JVal.truthy : JVal → Bool
  | .jnull => false
  | .jint n => n != 0
  | .jstr s => s != ""
  | .jbool b => b

/-- Decimal digits to a natural number; `none` when the list is empty or
contains a non-digit (the string would make Python's `int()` raise). -/
def digitsToNat (l : List Char) : Option Nat :=
  if l = [] then none
  else l.foldl (fun acc? c =>
    acc?.bind (fun acc =>
      if c.isDigit then some (acc * 10 + (c.toNat - 48)) else none))
    (some 0)

/-- Python `int(...)` on a string: an optional minus sign followed by
decimal digits (whitespace stripping and underscore separators, which no
claim exercises, are not modelled); `none` models a raised `ValueError`. -/
def pyStrToInt (s : String) : Option Int :=
  match s.data with
  | '-' :: ds => (digitsToNat ds).map (fun n => -(n : Int))
  | ds => (digitsToNat ds).map (fun n => (n : Int))

/-- Python `int(...)` on a JSON scalar; `none` models a raised
`TypeError`/`ValueError` (e.g. `int(None)` or a non-numeric string). -/
def JVal.toInt : JVal → Option Int
  | .jnull => none
  | .jint n => some n
  | .jstr s => pyStrToInt s
  | .jbool b => some (if b then 1 else 0)

/-- Row of the `questions` table (app.py:94-104).  The `type` column is named
`qtype` because `type` reads poorly as a Lean field; `options` is stored in
the source as a JSON array dumped from the request's list. -/
structure Question where
  id : Int
  qtype : String
  content : String
  options : List String
  time_limit : Option Int
  answer_limit : Option Int
deriving DecidableEq, Repr

/-- Row of the `activities` table (app.py:113-126).  `display_mode` has the
column default `'none'` but is nullable for pre-migration rows, hence
`Option String`. -/
structure Activity where
  id : Int
  name : String
  status : String
  current_question_id : Option Int
  groups_count : Option Int
  groups : Option (List String)
  display_mode : Option String
deriving DecidableEq, Repr

/-- Row of the `users` table (app.py:137-145). -/
structure User where
  id : Int
  activity_id : Option Int
  name : String
  group_name : Option String
deriving DecidableEq, Repr

/-- Row of the `answers` table (app.py:148-157). -/
structure Answer where
  id : Int
  activity_id : Option Int
  question_id : Option Int
  user_id : Option Int
  answer_text : Option String
deriving DecidableEq, Repr

/-- The database state: the four tables plus the next value of each SERIAL
primary-key sequence. -/
structure Db where
  questions : List Question
  activities : List Activity
  users : List User
  answers : List Answer
  nextQuestionId : Int
  nextActivityId : Int
  nextUserId : Int
  nextAnswerId : Int
deriving DecidableEq, Repr

/-- A database with empty tables and all id sequences at 1. -/
def emptyDb : Db := ⟨[], [], [], [], 1, 1, 1, 1⟩

/-- A Socket.IO broadcast event emitted by a route handler, with the payload
fields the claims refer to.  (`activity_updated` also carries the raw request
dict in the source; that echo of the input is not needed by any claim.) -/
inductive Event where
  | question_created (id : Int)
  | question_updated (id : Int)
  | question_deleted (id : Int)
  | activity_created (id : Int)
  | activity_updated (activity_id : Int)
  | user_joined (activity_id : Int) (user_id : Int)
  | answer_submitted (activity_id : Int) (question_id : Int)
  | display_update (activity_id : Int) (display_mode : String)
      (answer : Option String) (stats_limit : Option Int)
deriving DecidableEq, Repr

/-- The Socket.IO event name of an event. -/
def Event.name : Event → String
  | .question_created _ => "question_created"
  | .question_updated _ => "question_updated"
  | .question_deleted _ => "question_deleted"
  | .activity_created _ => "activity_created"
  | .activity_updated _ => "activity_updated"
  | .user_joined _ _ => "user_joined"
  | .answer_submitted _ _ => "answer_submitted"
  | .display_update _ _ _ _ => "display_update"

/-- One row of the answers-joined-with-users query of `get_activity`
(app.py:342-348): the answer columns plus `user_name` and `group_name` from
the joined `users` row. -/
structure AnswerRow where
  answer : Answer
  user_name : String
  group_name : Option String
deriving DecidableEq, Repr

/-- A JSON response body produced by a handler. -/
inductive Body where
  | idBody (id : Int)
  | successBody
  | errorBody (error : String)
  | errorCodeBody (error : String) (error_code : String)
  | groupsBody (groups : List String) (groups_count : Option Int)
  | activityBody (activity : Activity) (users : List User)
      (answers : List AnswerRow)
deriving DecidableEq, Repr

/-- Outcome of one handler invocation: `ok` carries the database after the
handler, the emitted events in order, the HTTP status and the JSON body;
`err` models an uncaught exception (Flask answers HTTP 500), carrying the
database state and the events that were emitted before the exception. -/
inductive HResult where
  | ok (db : Db) (events : List Event) (status : Nat) (body : Body)
  | err (db : Db) (events : List Event)
deriving DecidableEq, Repr

/-! ### Question endpoints (app.py:214-277) -/

/-- Request body of `POST /api/questions` and `PUT /api/questions/<id>`.
`answer_limit` is kept as a raw JSON scalar because the handler tests its
Python truthiness before converting it with `int(...)` (app.py:219-223). -/
structure QuestionInput where
  qtype : String
  content : String
  options : List String
  time_limit : Option Int
  answer_limit : JVal
deriving DecidableEq, Repr

/-- app.py:219-223 / 246-250:
`answer_limit = int(answer_limit) if answer_limit else None` with Python
truthiness; `none` models a raised conversion error. -/
def parse_answer_limit (v : JVal) : Option (Option Int) :=
  if v.truthy then v.toInt.map some else some none

/-- `create_question` (app.py:214-237): insert the question, emit
`question_created`, answer 201 with the new id. -/
def create_question (db : Db) (inp : QuestionInput) : HResult :=
  match parse_answer_limit inp.answer_limit with
  | none => .err db []
  | some al =>
    let row : Question :=
      ⟨db.nextQuestionId, inp.qtype, inp.content, inp.options, inp.time_limit, al⟩
    .ok { db with questions := db.questions ++ [row],
                  nextQuestionId := db.nextQuestionId + 1 }
       [.question_created db.nextQuestionId] 201 (.idBody db.nextQuestionId)

/-- `update_question` (app.py:240-265): update every row whose id matches
(at most one, id being the primary key), emit `question_updated`, answer
`{'success': True}`.  The handler does not check that the row exists. -/
def update_question (db : Db) (question_id : Int) (inp : QuestionInput) : HResult :=
  match parse_answer_limit inp.answer_limit with
  | none => .err db []
  | some al =>
    .ok { db with questions := db.questions.map (fun q =>
            if q.id == question_id then
              { q with qtype := inp.qtype, content := inp.content,
                       options := inp.options, time_limit := inp.time_limit,
                       answer_limit := al }
            else q) }
       [.question_updated question_id] 200 .successBody

/-- `delete_question` (app.py:268-277).  `answers.question_id` references
`questions(id)` with no cascade, so deleting a question that has answers
raises a foreign-key violation before the commit (HTTP 500, no event). -/
def delete_question (db : Db) (question_id : Int) : HResult :=
  if db.answers.any (fun a => a.question_id == some question_id) then
    .err db []
  else
    .ok { db with questions := db.questions.filter (fun q => q.id != question_id) }
       [.question_deleted question_id] 200 .successBody

/-! ### Activity endpoints (app.py:291-433, 582-615) -/

/-- Request body of `POST /api/activities`: `data['name']`,
`data.get('groups_count')` (an integer or null; app.py:299-300 applies
`int(...)` to a truthy value, the identity on integers) and
`data.get('groups', [])`. -/
structure ActivityInput where
  name : String
  groups_count : Option Int
  groups : List String
deriving DecidableEq, Repr

/-- `create_activity` (app.py:291-320): status is always `'preparing'`; a
non-empty `groups` list is stored and, when `groups_count` is falsy
(absent/null or 0), `groups_count` is set to its length; an empty `groups`
list is falsy, so NULL is stored.  `display_mode` takes its column default
`'none'`. -/
def create_activity (db : Db) (inp : ActivityInput) : HResult :=
  let gjson_gc : Option (List String) × Option Int :=
    if inp.groups ≠ [] then
      (some inp.groups,
       if inp.groups_count = none ∨ inp.groups_count = some 0 then
         some (inp.groups.length : Int)
       else inp.groups_count)
    else (none, inp.groups_count)
  let row : Activity :=
    ⟨db.nextActivityId, inp.name, "preparing", none, gjson_gc.2, gjson_gc.1, some "none"⟩
  .ok { db with activities := db.activities ++ [row],
                nextActivityId := db.nextActivityId + 1 }
     [.activity_created db.nextActivityId] 201 (.idBody db.nextActivityId)

/-- `get_activity` (app.py:323-353): 404 when the row is missing, otherwise
the activity plus its users and its answers inner-joined with `users` on
`a.user_id = u.id` (`user_name`, `group_name` taken from the joined user). -/
def get_activity (db : Db) (activity_id : Int) : HResult :=
  match db.activities.find? (fun a => a.id == activity_id) with
  | none => .ok db [] 404 (.errorBody "Activity not found")
  | some activity =>
    let users := db.users.filter (fun u => u.activity_id == some activity_id)
    let answers := (db.answers.filter (fun x => x.activity_id == some activity_id)).flatMap
      (fun x => (db.users.filter (fun u => x.user_id == some u.id)).map
        (fun u => AnswerRow.mk x u.name u.group_name))
    .ok db [] 200 (.activityBody activity users answers)

/-- Request body of `PUT /api/activities/<id>` (app.py:357-433).  The outer
`Option` of each field is `'key' in data`; the inner value is the field's
JSON value.  `groups` is restricted to null-or-array values: the handler
would pass any other truthy JSON value through to the JSONB column
unserialised (app.py:382), which the claims never exercise. -/
structure ActivityUpdate where
  status : Option String
  current_question_id : Option (Option Int)
  groups_count : Option (Option Int)
  groups : Option (Option (List String))
  display_mode : Option String
  projected_answer : Option String
  stats_limit : Option Int
deriving DecidableEq, Repr

/-- Whether any SET clause is collected (app.py:362-397): true iff one of the
five recognised columns appears in the request body. -/
def ActivityUpdate.hasUpdates (inp : ActivityUpdate) : Bool :=
  inp.status.isSome || inp.current_question_id.isSome ||
  inp.groups_count.isSome || inp.groups.isSome || inp.display_mode.isSome

/-- The combined effect of the collected SET clauses on the matching
activity row (app.py:365-393).  `groups_count` keeps a truthy integer and
stores NULL otherwise; a truthy `groups` array is stored and, only when
`groups_count` is not itself in the body, `groups_count` is set to its
length; a falsy `groups` value (null or the empty list) stores NULL.
(`started_at = CURRENT_TIMESTAMP` at app.py:369 touches only a timestamp
column, which is not modelled.) -/
def apply_activity_updates (inp : ActivityUpdate) (a : Activity) : Activity :=
  let a := match inp.status with
    | some s => { a with status := s }
    | none => a
  let a := match inp.current_question_id with
    | some v => { a with current_question_id := v }
    | none => a
  let a := match inp.groups_count with
    | some v => { a with groups_count :=
        match v with
        | some n => if n != 0 then some n else none
        | none => none }
    | none => a
  let a := match inp.groups with
    | some gv =>
      match gv with
      | some l =>
        if l ≠ [] then
          let a := { a with groups := some l }
          if inp.groups_count.isNone then
            { a with groups_count := some (l.length : Int) }
          else a
        else { a with groups := none }
      | none => { a with groups := none }
    | none => a
  match inp.display_mode with
  | some m => { a with display_mode := some m }
  | none => a

/-- `update_activity` (app.py:356-433).  After the UPDATE is committed and
the cursor and connection are closed (app.py:402-403), `activity_updated` is
always emitted.  If `display_mode` is in the body a `display_update` event
follows, carrying `projected_answer`/`stats_limit` when present.  Otherwise,
if the body sets status `'active'` and contains `current_question_id`, the
handler runs `cur.execute` on the already-closed cursor (app.py:424), which
raises `psycopg2.InterfaceError`: the branch can never reach its own
`display_update` emit, and Flask answers HTTP 500 (`err`, with the committed
write and the already-emitted `activity_updated` kept). -/
def update_activity (db : Db) (activity_id : Int) (inp : ActivityUpdate) : HResult :=
  let db' := if inp.hasUpdates then
      { db with activities := db.activities.map (fun a =>
          if a.id == activity_id then apply_activity_updates inp a else a) }
    else db
  let evs := [Event.activity_updated activity_id]
  match inp.display_mode with
  | some m =>
    .ok db' (evs ++ [.display_update activity_id m inp.projected_answer inp.stats_limit])
      200 .successBody
  | none =>
    if inp.status == some "active" && inp.current_question_id.isSome then
      .err db' evs
    else .ok db' evs 200 .successBody

/-- The default group names `['第1組', ..., '第k組']` generated at
app.py:611 by `[f'第{i}組' for i in range(1, groups_count + 1)]`; empty when
`k ≤ 0`, of length `k` otherwise. -/
def defaultGroupNames (k : Int) : List String :=
  (List.range k.toNat).map (fun i => "第" ++ toString (i + 1) ++ "組")

/-- `get_activity_groups` (app.py:582-615): 404 when the activity is
missing; a stored non-empty `groups` array is returned as-is (JSONB arrives
from `RealDictCursor` already parsed, so the `json.loads` branch for string
values is not exercised; an empty array is falsy and ignored); otherwise a
truthy `groups_count` generates the default names; otherwise the list is
empty.  The body always echoes the raw stored `groups_count`. -/
def get_activity_groups (db : Db) (activity_id : Int) : HResult :=
  match db.activities.find? (fun a => a.id == activity_id) with
  | none => .ok db [] 404 (.errorBody "Activity not found")
  | some row =>
    let groups : Option (List String) :=
      match row.groups with
      | some l => if l.isEmpty then none else some l
      | none => none
    match groups with
    | some l => .ok db [] 200 (.groupsBody l row.groups_count)
    | none =>
      match row.groups_count with
      | some k =>
        if k != 0 then
          .ok db [] 200 (.groupsBody (defaultGroupNames k) row.groups_count)
        else .ok db [] 200 (.groupsBody [] row.groups_count)
      | none => .ok db [] 200 (.groupsBody [] row.groups_count)

/-! ### User and answer endpoints (app.py:436-499) -/

/-- Request body of `POST /api/users`. -/
structure UserInput where
  activity_id : Int
  name : String
  group_name : Option String
deriving DecidableEq, Repr

/-- `join_activity` (app.py:436-452): insert the user (the
`users.activity_id` foreign key makes the insert raise when the activity
does not exist), emit `user_joined`, answer 201 with the new id. -/
def join_activity (db : Db) (inp : UserInput) : HResult :=
  if db.activities.any (fun a => a.id == inp.activity_id) then
    let row : User := ⟨db.nextUserId, some inp.activity_id, inp.name, inp.group_name⟩
    .ok { db with users := db.users ++ [row], nextUserId := db.nextUserId + 1 }
       [.user_joined inp.activity_id db.nextUserId] 201 (.idBody db.nextUserId)
  else .err db []

/-- Request body of `POST /api/answers`. -/
structure AnswerInput where
  activity_id : Int
  question_id : Int
  user_id : Int
  answer_text : String
deriving DecidableEq, Repr

/-- How many answers this user already recorded for this question
(app.py:468-473). -/
def countUserAnswers (db : Db) (question_id user_id : Int) : Nat :=
  (db.answers.filter (fun a =>
    a.question_id == some question_id && a.user_id == some user_id)).length

/-- The INSERT of app.py:484-493: the three foreign keys of `answers` make
the insert raise (HTTP 500) when the activity, question or user row is
missing; otherwise the row is committed, `answer_submitted` is emitted and
the handler answers 201 with the new id. -/
def insert_answer (db : Db) (inp : AnswerInput) : HResult :=
  if db.activities.any (fun a => a.id == inp.activity_id) &&
     db.questions.any (fun q => q.id == inp.question_id) &&
     db.users.any (fun u => u.id == inp.user_id) then
    let row : Answer := ⟨db.nextAnswerId, some inp.activity_id,
      some inp.question_id, some inp.user_id, some inp.answer_text⟩
    .ok { db with answers := db.answers ++ [row],
                  nextAnswerId := db.nextAnswerId + 1 }
       [.answer_submitted inp.activity_id inp.question_id] 201
       (.idBody db.nextAnswerId)
  else .err db []

/-- `submit_answer` (app.py:455-499).  The guard at app.py:465 is
`if question and question.get('answer_limit'):` — Python truthiness, so a
missing question row, a NULL `answer_limit` or a stored `answer_limit` of 0
all skip the limit check and fall through to the insert. -/
def submit_answer (db : Db) (inp : AnswerInput) : HResult :=
  match db.questions.find? (fun q => q.id == inp.question_id) with
  | some question =>
    match question.answer_limit with
    | some answer_limit =>
      if answer_limit != 0 then
        if answer_limit ≤ (countUserAnswers db inp.question_id inp.user_id : Int) then
          .ok db [] 400 (.errorCodeBody
            ("您已達到此題的回答次數限制（" ++ toString answer_limit ++ "次）")
            "ANSWER_LIMIT_EXCEEDED")
        else insert_answer db inp
      else insert_answer db inp
    | none => insert_answer db inp
  | none => insert_answer db inp

/-! ### `load_test.py`: result aggregation and the registration probe -/

/-- The mutable counters of `LoadTestResult` (load_test.py:16-25), with
response times as rationals and the wall-clock start/end instants kept as
optional values (they are `None` until `run_load_test` sets them). -/
structure LoadTestResult where
  total_requests : Nat
  successful_requests : Nat
  failed_requests : Nat
  response_times : List Rat
  error_messages : List String
  start_time : Option Rat
  end_time : Option Rat
deriving DecidableEq, Repr

/-- `LoadTestResult.__init__` (load_test.py:18-25). -/
def LoadTestResult.init : LoadTestResult := ⟨0, 0, 0, [], [], none, none⟩

/-- `LoadTestResult.add_result` (load_test.py:27-37): always count the
request and record its response time; on success bump
`successful_requests`, otherwise bump `failed_requests` and, when the
error message is truthy, append it.  The guard at load_test.py:36 is
`if error_msg:` — Python truthiness, so both `None` and the empty string
are falsy and append nothing. -/
def add_result (r : LoadTestResult) (success : Bool) (response_time : Rat)
    (error_msg : Option String) : LoadTestResult :=
  let r := { r with total_requests := r.total_requests + 1,
                    response_times := r.response_times ++ [response_time] }
  if success then { r with successful_requests := r.successful_requests + 1 }
  else
    let r := { r with failed_requests := r.failed_requests + 1 }
    match error_msg with
    | some m =>
      if m != "" then { r with error_messages := r.error_messages ++ [m] } else r
    | none => r

/-- Python `min(...)` of a list, as the source applies it to the non-empty
`response_times` (load_test.py:55); the value on `[]` is arbitrary because
`min([])` raises and the call sits behind the non-emptiness guard. -/
def pyMin : List Rat → Rat
  | [] => 0
  | t :: ts => ts.foldl min t

/-- Python `max(...)` of a list (load_test.py:56), as `pyMin`. -/
def pyMax : List Rat → Rat
  | [] => 0
  | t :: ts => ts.foldl max t

/-- The median index `len(sorted_times) // 2` (load_test.py:57). -/
def medianIndex (n : Nat) : Nat := n / 2

/-- The 95th-percentile index `int(len(sorted_times) * 0.95)`
(load_test.py:58).  In IEEE double arithmetic `int(n * 0.95)` equals
`⌊95·n/100⌋` for every list length that a run can produce (the rounding
error of the product is far below the distance of `95·n/100` to the next
integer for all `n` below `10^13`), so the index is modelled exactly. -/
def p95Index (n : Nat) : Nat := n * 95 / 100

/-- The 99th-percentile index `int(len(sorted_times) * 0.99)`
(load_test.py:59); the float expression again equals `⌊99·n/100⌋` for every
feasible length. -/
def p99Index (n : Nat) : Nat := n * 99 / 100

/-- The statistics dictionary built by `LoadTestResult.get_statistics`
(load_test.py:47-60). -/
structure Stats where
  total_requests : Nat
  successful_requests : Nat
  failed_requests : Nat
  success_rate : Rat
  total_time : Rat
  requests_per_second : Rat
  avg_response_time : Rat
  min_response_time : Rat
  max_response_time : Rat
  median_response_time : Rat
  p95_response_time : Rat
  p99_response_time : Rat
deriving DecidableEq, Repr

/-- `LoadTestResult.get_statistics` (load_test.py:39-62): the empty
dictionary (`none`) for an empty `response_times`, otherwise the statistics
computed over the recorded times (`sorted(...)` is ascending).  The inner
`if len(sorted_times) > 0` guards on the percentile lines are vacuously true
here and the `if self.total_requests > 0` guard of `success_rate` is kept. -/
def total_time_of (r : LoadTestResult) : Rat :=
  match r.start_time, r.end_time with
  | some s, some e => e - s
  | _, _ => 0

def get_statistics (r : LoadTestResult) : Option Stats :=
  if r.response_times = [] then none
  else
    let times := r.response_times
    let sorted_times := List.insertionSort (fun a b => a ≤ b) times
    let total_time : Rat := total_time_of r
    some
      { total_requests := r.total_requests
        successful_requests := r.successful_requests
        failed_requests := r.failed_requests
        success_rate :=
          if 0 < r.total_requests then
            (r.successful_requests : Rat) / (r.total_requests : Rat) * 100
          else 0
        total_time := total_time
        requests_per_second :=
          if 0 < total_time then (r.total_requests : Rat) / total_time else 0
        avg_response_time := times.sum / (times.length : Rat)
        min_response_time := pyMin times
        max_response_time := pyMax times
        median_response_time := sorted_times.getD (medianIndex times.length) 0
        p95_response_time := sorted_times.getD (p95Index times.length) 0
        p99_response_time := sorted_times.getD (p99Index times.length) 0 }

/-- The classification a registration attempt can meet
(load_test.py:102-122): an HTTP response with some status code and body
text, or one of the three exception branches. -/
inductive HttpAttempt where
  | response (status_code : Nat) (text : String)
  | timeoutError
  | connectionError
  | otherError (msg : String)
deriving DecidableEq, Repr

/-- `send_register_request` (load_test.py:81-122), as a function of the
attempt outcome and of the elapsed wall-clock time (an environmental input):
success exactly on status 201; every other branch returns `False` together
with a non-null error message; every branch returns the measured elapsed
time. -/
def send_register_request (attempt : HttpAttempt) (response_time : Rat) :
    Bool × Rat × Option String :=
  match attempt with
  | .response code text =>
    if code = 201 then (true, response_time, none)
    else (false, response_time, some ("HTTP " ++ toString code ++ ": " ++ text.take 100))
  | .timeoutError => (false, response_time, some "請求逾時")
  | .connectionError => (false, response_time, some "連線錯誤")
  | .otherError msg => (false, response_time, some ("發生錯誤: " ++ msg))

/-- One `result.add_result(success, response_time, error_msg)` call of the
collection loop of `run_load_test` (load_test.py:179-192). -/
def collect_step (acc : LoadTestResult) (x : Bool × Rat × Option String) :
    LoadTestResult :=
  add_result acc x.1 x.2.1 x.2.2

/-- The state of a fresh `LoadTestResult` after the collection loop of
`run_load_test` has fed it a list of `(success, response_time, error_msg)`
triples, in completion order. -/
def run_results (rs : List (Bool × Rat × Option String)) : LoadTestResult :=
  rs.foldl collect_step LoadTestResult.init

/-! ### `socket_load_test.py`: the connection-time summary -/

/-- The `connection_time` sub-dictionary of
`SocketTestResult.get_statistics` (socket_load_test.py:107-116); the
per-event blocks at socket_load_test.py:120-130 compute the same six keys
over each event's time list. -/
structure ConnTimeStats where
  avg : Rat
  min : Rat
  max : Rat
  median : Rat
  p95 : Rat
  p99 : Rat
deriving DecidableEq, Repr

/-- socket_load_test.py:107-116: `none` when `self.connection_times` is
empty (the `connection_time` key is then left out of the dictionary),
otherwise the six summary values with the same indices as
`LoadTestResult.get_statistics`. -/
def connection_time_summary (connection_times : List Rat) : Option ConnTimeStats :=
  if connection_times = [] then none
  else
    let sorted_times := List.insertionSort (fun a b => a ≤ b) connection_times
    some ⟨connection_times.sum / (connection_times.length : Rat),
          pyMin connection_times, pyMax connection_times,
          sorted_times.getD (medianIndex connection_times.length) 0,
          sorted_times.getD (p95Index connection_times.length) 0,
          sorted_times.getD (p99Index connection_times.length) 0⟩

/-! ### Supporting lemmas about `add_result` and the collection fold -/

lemma add_result_total (r : LoadTestResult) (s : Bool) (t : Rat) (e : Option String) :
    (add_result r s t e).total_requests = r.total_requests + 1 := by
  cases s <;> cases e <;> simp [add_result]
  split <;> rfl

lemma add_result_succ (r : LoadTestResult) (s : Bool) (t : Rat) (e : Option String) :
    (add_result r s t e).successful_requests
      = r.successful_requests + (if s then 1 else 0) := by
  cases s <;> cases e <;> simp [add_result]
  split <;> rfl

lemma add_result_failed (r : LoadTestResult) (s : Bool) (t : Rat) (e : Option String) :
    (add_result r s t e).failed_requests
      = r.failed_requests + (if s then 0 else 1) := by
  cases s <;> cases e <;> simp [add_result]
  split <;> rfl

lemma add_result_times (r : LoadTestResult) (s : Bool) (t : Rat) (e : Option String) :
    (add_result r s t e).response_times = r.response_times ++ [t] := by
  cases s <;> cases e <;> simp [add_result]
  split <;> rfl

/-- The `error_messages` entries one call appends: nothing on success, and
on failure the message exactly when it is truthy (non-null and non-empty). -/
def error_entry (s : Bool) (e : Option String) : Option String :=
  if s then none
  else
    match e with
    | some m => if m != "" then some m else none
    | none => none

lemma add_result_errors (r : LoadTestResult) (s : Bool) (t : Rat) (e : Option String) :
    (add_result r s t e).error_messages
      = r.error_messages ++ (error_entry s e).toList := by
  cases s <;> cases e <;> simp [add_result, error_entry]
  split <;> simp

lemma collect_step_total (r : LoadTestResult) (x : Bool × Rat × Option String) :
    (collect_step r x).total_requests = r.total_requests + 1 :=
  add_result_total r x.1 x.2.1 x.2.2

lemma collect_step_succ (r : LoadTestResult) (x : Bool × Rat × Option String) :
    (collect_step r x).successful_requests
      = r.successful_requests + (if x.1 then 1 else 0) :=
  add_result_succ r x.1 x.2.1 x.2.2

lemma collect_step_failed (r : LoadTestResult) (x : Bool × Rat × Option String) :
    (collect_step r x).failed_requests
      = r.failed_requests + (if x.1 then 0 else 1) :=
  add_result_failed r x.1 x.2.1 x.2.2

lemma collect_step_times (r : LoadTestResult) (x : Bool × Rat × Option String) :
    (collect_step r x).response_times = r.response_times ++ [x.2.1] :=
  add_result_times r x.1 x.2.1 x.2.2

lemma collect_step_errors (r : LoadTestResult) (x : Bool × Rat × Option String) :
    (collect_step r x).error_messages
      = r.error_messages ++ (error_entry x.1 x.2.2).toList :=
  add_result_errors r x.1 x.2.1 x.2.2

lemma run_fold_spec (rs : List (Bool × Rat × Option String)) :
    ∀ r0 : LoadTestResult,
      (rs.foldl collect_step r0).total_requests = r0.total_requests + rs.length ∧
      (rs.foldl collect_step r0).successful_requests
        = r0.successful_requests + rs.countP (fun x => x.1) ∧
      (rs.foldl collect_step r0).failed_requests
        = r0.failed_requests + rs.countP (fun x => !x.1) ∧
      (rs.foldl collect_step r0).response_times
        = r0.response_times ++ rs.map (fun x => x.2.1) ∧
      (rs.foldl collect_step r0).error_messages
        = r0.error_messages ++ rs.filterMap (fun x => error_entry x.1 x.2.2) := by
  induction rs with
  | nil => intro r0; simp
  | cons x xs ih =>
    intro r0
    obtain ⟨h1, h2, h3, h4, h5⟩ := ih (collect_step r0 x)
    refine ⟨?_, ?_, ?_, ?_, ?_⟩
    · rw [List.foldl_cons, h1, collect_step_total, List.length_cons]
      omega
    · rw [List.foldl_cons, h2, collect_step_succ, List.countP_cons]
      cases hx : x.1 <;> (simp; try omega)
    · rw [List.foldl_cons, h3, collect_step_failed, List.countP_cons]
      cases hx : x.1 <;> (simp; try omega)
    · rw [List.foldl_cons, h4, collect_step_times, List.map_cons]
      simp
    · rw [List.foldl_cons, h5, collect_step_errors, List.filterMap_cons]
      cases hx : x.1 <;> cases he : x.2.2 <;>
        simp [hx, he, error_entry]
      split <;> simp

lemma countP_add_countP_not {α : Type} (l : List α) (p : α → Bool) :
    l.countP p + l.countP (fun a => !(p a)) = l.length := by
  induction l with
  | nil => simp
  | cons a as ih => by_cases h : p a <;> simp [List.countP_cons, h] <;> omega

lemma length_filterMap_eq_countP {α β : Type} (l : List α) (f : α → Option β) :
    (l.filterMap f).length = l.countP (fun a => (f a).isSome) := by
  induction l with
  | nil => simp
  | cons a as ih =>
    cases hf : f a <;> simp [List.filterMap_cons, hf, List.countP_cons, ih]

/-! ### Supporting lemmas about Python `min`/`max` over a list -/

lemma foldl_min_le_init (ts : List Rat) (t : Rat) : ts.foldl min t ≤ t := by
  induction ts generalizing t with
  | nil => simp
  | cons a as ih => exact le_trans (ih (min t a)) (min_le_left t a)

lemma foldl_min_le_mem {x : Rat} (ts : List Rat) (t : Rat) (hx : x ∈ ts) :
    ts.foldl min t ≤ x := by
  induction ts generalizing t with
  | nil => cases hx
  | cons a as ih =>
    rcases List.mem_cons.mp hx with h | h
    · subst h
      exact le_trans (foldl_min_le_init as (min t x)) (min_le_right t x)
    · exact ih (min t a) h

lemma foldl_min_mem (ts : List Rat) (t : Rat) : ts.foldl min t ∈ t :: ts := by
  induction ts generalizing t with
  | nil => simp
  | cons a as ih =>
    rcases List.mem_cons.mp (ih (min t a)) with h1 | h1
    · rcases min_choice t a with hm | hm
      · rw [List.foldl_cons, h1, hm]; exact List.mem_cons_self _ _
      · rw [List.foldl_cons, h1, hm]
        exact List.mem_cons_of_mem _ (List.mem_cons_self _ _)
    · exact List.mem_cons_of_mem _ (List.mem_cons_of_mem _ h1)

lemma pyMin_le {x : Rat} {l : List Rat} (hx : x ∈ l) : pyMin l ≤ x := by
  cases l with
  | nil => cases hx
  | cons t ts =>
    rcases List.mem_cons.mp hx with h | h
    · subst h; exact foldl_min_le_init ts x
    · exact foldl_min_le_mem ts t h

lemma pyMin_mem {l : List Rat} (h : l ≠ []) : pyMin l ∈ l := by
  cases l with
  | nil => simp at h
  | cons t ts => exact foldl_min_mem ts t

lemma foldl_max_init_le (ts : List Rat) (t : Rat) : t ≤ ts.foldl max t := by
  induction ts generalizing t with
  | nil => simp
  | cons a as ih => exact le_trans (le_max_left t a) (ih (max t a))

lemma foldl_max_mem_le {x : Rat} (ts : List Rat) (t : Rat) (hx : x ∈ ts) :
    x ≤ ts.foldl max t := by
  induction ts generalizing t with
  | nil => cases hx
  | cons a as ih =>
    rcases List.mem_cons.mp hx with h | h
    · subst h
      exact le_trans (le_max_right t x) (foldl_max_init_le as (max t x))
    · exact ih (max t a) h

lemma foldl_max_mem (ts : List Rat) (t : Rat) : ts.foldl max t ∈ t :: ts := by
  induction ts generalizing t with
  | nil => simp
  | cons a as ih =>
    rcases List.mem_cons.mp (ih (max t a)) with h1 | h1
    · rcases max_choice t a with hm | hm
      · rw [List.foldl_cons, h1, hm]; exact List.mem_cons_self _ _
      · rw [List.foldl_cons, h1, hm]
        exact List.mem_cons_of_mem _ (List.mem_cons_self _ _)
    · exact List.mem_cons_of_mem _ (List.mem_cons_of_mem _ h1)

lemma pyMax_le {x : Rat} {l : List Rat} (hx : x ∈ l) : x ≤ pyMax l := by
  cases l with
  | nil => cases hx
  | cons t ts =>
    rcases List.mem_cons.mp hx with h | h
    · subst h; exact foldl_max_init_le ts x
    · exact foldl_max_mem_le ts t h

lemma pyMax_mem {l : List Rat} (h : l ≠ []) : pyMax l ∈ l := by
  cases l with
  | nil => simp at h
  | cons t ts => exact foldl_max_mem ts t

/-! ### Claims C9, C5, C7, C8 -/

/-- Counterexample to C9 as stated: a failed `add_result` call supplying the
non-null but empty error message `""` appends nothing, because the guard
`if error_msg:` at load_test.py:36 is falsy on the empty string — so after
that call the failed-with-non-null-message count is 1 while
`error_messages` is empty. -/
theorem c9_counterexample :
    (run_results [(false, (1 : Rat), some "")]).error_messages = [] ∧
    [((false : Bool), (1 : Rat), (some "" : Option String))].countP
      (fun x => !x.1 && x.2.2.isSome) = 1 :=
  ⟨rfl, rfl⟩

/-- C9 (amended): after every sequence of `LoadTestResult.add_result` calls,
`total_requests = successful_requests + failed_requests` and
`len(response_times) = total_requests` hold, and each failed call supplying
a truthy error message — non-null and non-empty, Python truthiness — appends
exactly one `error_messages` entry (a failed call whose message is null or
empty appends nothing). -/
theorem c9_add_result_invariants (rs : List (Bool × Rat × Option String)) :
    (run_results rs).total_requests
      = (run_results rs).successful_requests + (run_results rs).failed_requests ∧
    (run_results rs).response_times.length = (run_results rs).total_requests ∧
    (run_results rs).error_messages.length
      = rs.countP (fun x => !x.1 && (x.2.2.getD "" != "")) := by
  obtain ⟨h1, h2, h3, h4, h5⟩ := run_fold_spec rs LoadTestResult.init
  refine ⟨?_, ?_, ?_⟩ <;> simp only [run_results]
  · rw [h1, h2, h3]
    have := countP_add_countP_not rs (fun x => x.1)
    simp only [LoadTestResult.init] at *
    omega
  · rw [h1, h4]
    simp [LoadTestResult.init]
  · rw [h5]
    simp only [LoadTestResult.init, List.nil_append,
      length_filterMap_eq_countP]
    refine List.countP_congr (fun x _ => ?_)
    obtain ⟨s, t, e⟩ := x
    rcases e with _ | m
    · cases s <;> simp [error_entry]
    · cases s <;> by_cases hm : (m != "") = true <;> simp [error_entry, hm]

/-- The dictionary built by `get_statistics` once its non-emptiness guard
has passed, with every field spelled out. -/
lemma get_statistics_eq (r : LoadTestResult) (h : r.response_times ≠ []) :
    get_statistics r = some
      { total_requests := r.total_requests
        successful_requests := r.successful_requests
        failed_requests := r.failed_requests
        success_rate :=
          if 0 < r.total_requests then
            (r.successful_requests : Rat) / (r.total_requests : Rat) * 100
          else 0
        total_time := total_time_of r
        requests_per_second :=
          if 0 < total_time_of r then (r.total_requests : Rat) / total_time_of r
          else 0
        avg_response_time := r.response_times.sum / (r.response_times.length : Rat)
        min_response_time := pyMin r.response_times
        max_response_time := pyMax r.response_times
        median_response_time :=
          (List.insertionSort (fun a b => a ≤ b) r.response_times).getD
            (medianIndex r.response_times.length) 0
        p95_response_time :=
          (List.insertionSort (fun a b => a ≤ b) r.response_times).getD
            (p95Index r.response_times.length) 0
        p99_response_time :=
          (List.insertionSort (fun a b => a ≤ b) r.response_times).getD
            (p99Index r.response_times.length) 0 } := by
  rw [get_statistics, if_neg h]

/-- C5: for every non-empty sequence of recorded response times,
`LoadTestResult.get_statistics` computes `success_rate` as
`successful/total*100`, the average as the arithmetic mean, `min`/`max` as
the minimum/maximum, and the median, p95 and p99 as the elements of the
ascending sorted times at indices `⌊n/2⌋`, `⌊n·0.95⌋` and `⌊n·0.99⌋`. -/
theorem c5_get_statistics_formulas (rs : List (Bool × Rat × Option String))
    (hne : rs ≠ []) :
    ∃ (stats : Stats) (st : List Rat),
      get_statistics (run_results rs) = some stats ∧
      st.Perm (rs.map (fun x => x.2.1)) ∧
      List.Sorted (fun a b : Rat => a ≤ b) st ∧
      stats.success_rate
        = ((rs.countP (fun x => x.1) : Rat) / (rs.length : Rat)) * 100 ∧
      stats.avg_response_time
        = (rs.map (fun x => x.2.1)).sum / (rs.length : Rat) ∧
      stats.min_response_time ∈ rs.map (fun x => x.2.1) ∧
      (∀ t ∈ rs.map (fun x => x.2.1), stats.min_response_time ≤ t) ∧
      stats.max_response_time ∈ rs.map (fun x => x.2.1) ∧
      (∀ t ∈ rs.map (fun x => x.2.1), t ≤ stats.max_response_time) ∧
      stats.median_response_time = st.getD (rs.length / 2) 0 ∧
      stats.p95_response_time = st.getD (rs.length * 95 / 100) 0 ∧
      stats.p99_response_time = st.getD (rs.length * 99 / 100) 0 := by
  obtain ⟨h1, h2, h3, h4, h5⟩ := run_fold_spec rs LoadTestResult.init
  have htot : (run_results rs).total_requests = rs.length := by
    simp only [run_results]; rw [h1]; simp [LoadTestResult.init]
  have hsucc : (run_results rs).successful_requests = rs.countP (fun x => x.1) := by
    simp only [run_results]; rw [h2]; simp [LoadTestResult.init]
  have htimes : (run_results rs).response_times = rs.map (fun x => x.2.1) := by
    simp only [run_results]; rw [h4]; simp [LoadTestResult.init]
  have hmapne : rs.map (fun x => x.2.1) ≠ [] := by simpa using hne
  have htne : (run_results rs).response_times ≠ [] := by rw [htimes]; exact hmapne
  have hlen : 0 < rs.length := List.length_pos.mpr hne
  refine ⟨_, List.insertionSort (fun a b => a ≤ b) (rs.map (fun x => x.2.1)),
    get_statistics_eq (run_results rs) htne,
    List.perm_insertionSort _ _, List.sorted_insertionSort _ _,
    ?_, ?_, ?_, ?_, ?_, ?_, ?_, ?_, ?_⟩
  · dsimp only
    rw [htot, hsucc, if_pos hlen]
  · dsimp only
    rw [htimes, List.length_map]
  · dsimp only
    rw [htimes]
    exact pyMin_mem hmapne
  · intro t ht
    dsimp only
    rw [htimes]
    exact pyMin_le ht
  · dsimp only
    rw [htimes]
    exact pyMax_mem hmapne
  · intro t ht
    dsimp only
    rw [htimes]
    exact pyMax_le ht
  · dsimp only
    rw [htimes]
    dsimp only [medianIndex]
    rw [List.length_map]
  · dsimp only
    rw [htimes]
    dsimp only [p95Index]
    rw [List.length_map]
  · dsimp only
    rw [htimes]
    dsimp only [p99Index]
    rw [List.length_map]

/-- Witness for C5 at a concrete two-element run. -/
def c5rs : List (Bool × Rat × Option String) :=
  [(true, 2, none), (false, 1, some "HTTP 500: err")]

/-- Witness for C5: the theorem applied at a concrete non-empty run. -/
theorem c5_get_statistics_formulas_witness :
    c5rs ≠ [] ∧
    ∃ (stats : Stats) (st : List Rat),
      get_statistics (run_results c5rs) = some stats ∧
      st.Perm (c5rs.map (fun x => x.2.1)) ∧
      List.Sorted (fun a b : Rat => a ≤ b) st ∧
      stats.success_rate
        = ((c5rs.countP (fun x => x.1) : Rat) / (c5rs.length : Rat)) * 100 ∧
      stats.avg_response_time
        = (c5rs.map (fun x => x.2.1)).sum / (c5rs.length : Rat) ∧
      stats.min_response_time ∈ c5rs.map (fun x => x.2.1) ∧
      (∀ t ∈ c5rs.map (fun x => x.2.1), stats.min_response_time ≤ t) ∧
      stats.max_response_time ∈ c5rs.map (fun x => x.2.1) ∧
      (∀ t ∈ c5rs.map (fun x => x.2.1), t ≤ stats.max_response_time) ∧
      stats.median_response_time = st.getD (c5rs.length / 2) 0 ∧
      stats.p95_response_time = st.getD (c5rs.length * 95 / 100) 0 ∧
      stats.p99_response_time = st.getD (c5rs.length * 99 / 100) 0 :=
  ⟨by decide, c5_get_statistics_formulas c5rs (by decide)⟩

/-- C7: `send_register_request` succeeds exactly on HTTP 201; every non-201
response and every exception branch yields a failure with a non-null error
message; the elapsed time is returned in every case and `add_result` records
it. -/
theorem c7_send_register_request_classification
    (attempt : HttpAttempt) (rt : Rat) (r : LoadTestResult)
    (s : Bool) (t : Rat) (e : Option String)
    (h : send_register_request attempt rt = (s, t, e)) :
    (s = true ↔ ∃ text, attempt = .response 201 text) ∧
    (s = false → e ≠ none) ∧
    t = rt ∧
    (add_result r s t e).response_times = r.response_times ++ [rt] := by
  have hrec : (add_result r s t e).response_times = r.response_times ++ [t] :=
    add_result_times r s t e
  cases attempt with
  | response code text =>
    by_cases hc : code = 201
    · subst hc
      simp [send_register_request] at h
      obtain ⟨hs, ht, he⟩ := h
      subst hs; subst ht; subst he
      exact ⟨by simp, by simp, rfl, hrec⟩
    · simp [send_register_request, hc] at h
      obtain ⟨hs, ht, he⟩ := h
      subst hs; subst ht; subst he
      refine ⟨?_, by simp, rfl, hrec⟩
      simp only [Bool.false_eq_true, false_iff]
      rintro ⟨text', htext⟩
      exact hc (by injection htext)
  | timeoutError =>
    simp [send_register_request] at h
    obtain ⟨hs, ht, he⟩ := h
    subst hs; subst ht; subst he
    exact ⟨by simp, by simp, rfl, hrec⟩
  | connectionError =>
    simp [send_register_request] at h
    obtain ⟨hs, ht, he⟩ := h
    subst hs; subst ht; subst he
    exact ⟨by simp, by simp, rfl, hrec⟩
  | otherError msg =>
    simp [send_register_request] at h
    obtain ⟨hs, ht, he⟩ := h
    subst hs; subst ht; subst he
    exact ⟨by simp, by simp, rfl, hrec⟩

/-- Witness for C7 at a concrete successful attempt. -/
theorem c7_send_register_request_classification_witness :
    ((true : Bool) = true ↔ ∃ text, HttpAttempt.response 201 "created"
        = HttpAttempt.response 201 text) ∧
    ((true : Bool) = false → (none : Option String) ≠ none) ∧
    (1 : Rat) = 1 ∧
    (add_result LoadTestResult.init true 1 none).response_times
      = LoadTestResult.init.response_times ++ [1] :=
  c7_send_register_request_classification (.response 201 "created") 1
    LoadTestResult.init true 1 none rfl

/-- C8: for a non-empty list of `n` recorded times the three indices used by
`get_statistics` (in `load_test.py`, and by the identically-indexed
connection-time summary in `socket_load_test.py`) are strictly below `n`,
and sorting preserves the length, so the indexing stays in bounds; on the
empty list both statistics functions return the empty dictionary. -/
theorem c8_percentile_indices_in_bounds :
    (∀ n : Nat, n ≠ 0 → medianIndex n < n ∧ p95Index n < n ∧ p99Index n < n) ∧
    (∀ r : LoadTestResult, r.response_times = [] → get_statistics r = none) ∧
    connection_time_summary [] = none ∧
    (∀ l : List Rat, (List.insertionSort (fun a b => a ≤ b) l).length = l.length) := by
  refine ⟨?_, ?_, rfl, ?_⟩
  · intro n hn
    unfold medianIndex p95Index p99Index
    omega
  · intro r h
    simp [get_statistics, h]
  · intro l
    exact (List.perm_insertionSort _ l).length_eq

/-- Witness for C8 at a concrete length. -/
theorem c8_percentile_indices_in_bounds_witness :
    medianIndex 4 < 4 ∧ p95Index 4 < 4 ∧ p99Index 4 < 4 :=
  c8_percentile_indices_in_bounds.1 4 (by decide)

/-! ### Claims C1, C3, C4 -/

/-- C1 (amended): for a question whose `answer_limit` is a non-null, nonzero
value `l`, `submit_answer` answers 400 with `ANSWER_LIMIT_EXCEEDED` and
leaves the database unchanged as soon as the user already has at least `l`
recorded answers for the question; with no limit, a zero limit (falsy in
Python, so the check is skipped) or strictly fewer prior answers, it inserts
the answer and answers 201 with the new id.  The foreign-key hypotheses
restrict the statement to submissions naming an existing activity and
user. -/
theorem c1_submit_answer_limit (db : Db) (inp : AnswerInput) (q : Question)
    (hq : db.questions.find? (fun qq => qq.id == inp.question_id) = some q)
    (ha : db.activities.any (fun a => a.id == inp.activity_id) = true)
    (hu : db.users.any (fun u => u.id == inp.user_id) = true) :
    (∀ l : Int, q.answer_limit = some l → l ≠ 0 →
      l ≤ (countUserAnswers db inp.question_id inp.user_id : Int) →
      submit_answer db inp = .ok db [] 400 (.errorCodeBody
        ("您已達到此題的回答次數限制（" ++ toString l ++ "次）")
        "ANSWER_LIMIT_EXCEEDED")) ∧
    ((q.answer_limit = none ∨ q.answer_limit = some 0 ∨
      (∃ l : Int, q.answer_limit = some l ∧
        (countUserAnswers db inp.question_id inp.user_id : Int) < l)) →
      submit_answer db inp = .ok
        { db with
            answers := db.answers ++ [⟨db.nextAnswerId, some inp.activity_id,
              some inp.question_id, some inp.user_id, some inp.answer_text⟩],
            nextAnswerId := db.nextAnswerId + 1 }
        [.answer_submitted inp.activity_id inp.question_id] 201
        (.idBody db.nextAnswerId)) := by
  have hqa : db.questions.any (fun qq => qq.id == inp.question_id) = true := by
    have hmem := List.mem_of_find?_eq_some hq
    have hpq := List.find?_some hq
    exact List.any_eq_true.mpr ⟨q, hmem, hpq⟩
  have hins : insert_answer db inp = .ok
      { db with
          answers := db.answers ++ [⟨db.nextAnswerId, some inp.activity_id,
            some inp.question_id, some inp.user_id, some inp.answer_text⟩],
          nextAnswerId := db.nextAnswerId + 1 }
      [.answer_submitted inp.activity_id inp.question_id] 201
      (.idBody db.nextAnswerId) := by
    unfold insert_answer
    rw [ha, hqa, hu]
    rfl
  constructor
  · intro l hl hl0 hle
    unfold submit_answer
    rw [hq]
    dsimp only
    rw [hl]
    dsimp only
    rw [if_pos (bne_iff_ne.mpr hl0), if_pos hle]
  · rintro (h | h | ⟨l, hl, hlt⟩)
    · unfold submit_answer
      rw [hq]
      dsimp only
      rw [h]
      exact hins
    · unfold submit_answer
      rw [hq]
      dsimp only
      rw [h]
      dsimp only
      rw [if_neg (by decide)]
      exact hins
    · have hl0 : l ≠ 0 := by
        have : (0 : Int) ≤ (countUserAnswers db inp.question_id inp.user_id : Int) :=
          Int.natCast_nonneg _
        omega
      unfold submit_answer
      rw [hq]
      dsimp only
      rw [hl]
      dsimp only
      rw [if_pos (bne_iff_ne.mpr hl0), if_neg (not_le.mpr hlt)]
      exact hins

/-- Database for the C1 counterexample: question 1 has a stored
`answer_limit` of 0 (reachable by creating the question with the JSON string
`"0"`), activity 1 and user 1 exist, no answers yet. -/
def c1Db : Db :=
  ⟨[⟨1, "text", "q", [], none, some 0⟩],
   [⟨1, "act", "preparing", none, none, none, some "none"⟩],
   [⟨1, some 1, "u", none⟩], [], 2, 2, 2, 1⟩

/-- The C1 counterexample request. -/
def c1Inp : AnswerInput := ⟨1, 1, 1, "hello"⟩

/-- Counterexample to C1 as stated: question 1 has the non-null
`answer_limit` 0 and the submitting user already has at least 0 recorded
answers, so the claim demands HTTP 400 with `ANSWER_LIMIT_EXCEEDED` and no
insert — but `submit_answer` (the guard `question.get('answer_limit')` being
falsy for 0) inserts the row and answers 201. -/
theorem c1_counterexample :
    (c1Db.questions.find? (fun q => q.id == c1Inp.question_id)
      = some ⟨1, "text", "q", [], none, some 0⟩) ∧
    countUserAnswers c1Db c1Inp.question_id c1Inp.user_id = 0 ∧
    submit_answer c1Db c1Inp = .ok
      { c1Db with
          answers := [⟨1, some 1, some 1, some 1, some "hello"⟩],
          nextAnswerId := 2 }
      [.answer_submitted 1 1] 201 (.idBody 1) := by
  refine ⟨by decide, by decide, by decide⟩

/-- Reachability of the counterexample state: `create_question` stores
`answer_limit = 0` when the request carries the JSON string `"0"` (truthy,
and `int("0") = 0`). -/
lemma create_question_stores_zero_limit :
    create_question emptyDb ⟨"text", "q", [], none, .jstr "0"⟩ = .ok
      { emptyDb with
          questions := [⟨1, "text", "q", [], none, some 0⟩],
          nextQuestionId := 2 }
      [.question_created 1] 201 (.idBody 1) := by
  decide

/-- Witness for C1 (amended) at a question with limit 1 and one prior
answer: the submission is rejected with 400 and the database unchanged. -/
def c1wDb : Db :=
  ⟨[⟨1, "text", "q", [], none, some 1⟩],
   [⟨1, "act", "preparing", none, none, none, some "none"⟩],
   [⟨1, some 1, "u", none⟩],
   [⟨1, some 1, some 1, some 1, some "x"⟩], 2, 2, 2, 2⟩

/-- Witness for C1: the amended theorem applied at `c1wDb`. -/
theorem c1_submit_answer_limit_witness :
    submit_answer c1wDb ⟨1, 1, 1, "y"⟩ = .ok c1wDb [] 400 (.errorCodeBody
      ("您已達到此題的回答次數限制（" ++ toString (1 : Int) ++ "次）")
      "ANSWER_LIMIT_EXCEEDED") :=
  (c1_submit_answer_limit c1wDb ⟨1, 1, 1, "y"⟩ ⟨1, "text", "q", [], none, some 1⟩
    (by decide) (by decide) (by decide)).1 1 rfl (by decide) (by decide)

/-- `apply_activity_updates` writes the requested status string verbatim. -/
lemma apply_updates_status (inp : ActivityUpdate) (a : Activity) (s : String)
    (hs : inp.status = some s) : (apply_activity_updates inp a).status = s := by
  obtain ⟨st, cq, gc, gr, dm, pa, sl⟩ := inp
  dsimp only at hs
  subst hs
  unfold apply_activity_updates
  dsimp only
  repeat' split
  all_goals rfl

/-- `apply_activity_updates` never changes the row id. -/
lemma apply_updates_id (inp : ActivityUpdate) (a : Activity) :
    (apply_activity_updates inp a).id = a.id := by
  obtain ⟨st, cq, gc, gr, dm, pa, sl⟩ := inp
  unfold apply_activity_updates
  dsimp only
  repeat' split
  all_goals rfl

/-- C3 (amended): `create_activity` always creates the activity with status
`'preparing'`; `update_activity`, however, performs no validation and writes
whatever status string the request supplies to the matching row, so statuses
outside `{'preparing', 'active', 'ended'}` are reachable. -/
theorem c3_status_free_text :
    (∀ (db : Db) (inp : ActivityInput) (d : Db) (ev : List Event) (st : Nat) (b : Body),
      create_activity db inp = .ok d ev st b →
      ∃ row, d.activities = db.activities ++ [row] ∧ row.status = "preparing") ∧
    (∀ (db : Db) (aid : Int) (inp : ActivityUpdate) (d : Db) (ev : List Event)
        (st : Nat) (b : Body) (s : String),
      update_activity db aid inp = .ok d ev st b →
      inp.status = some s →
      ∀ a ∈ d.activities, a.id = aid → a.status = s) := by
  constructor
  · intro db inp d ev st b h
    unfold create_activity at h
    cases h
    exact ⟨_, rfl, rfl⟩
  · intro db aid inp d ev st b s h hs
    have hhas : inp.hasUpdates = true := by
      simp [ActivityUpdate.hasUpdates, hs]
    unfold update_activity at h
    rw [hhas] at h
    simp only [if_true] at h
    have hd : d = { db with activities := db.activities.map (fun a =>
        if a.id == aid then apply_activity_updates inp a else a) } := by
      cases hdm : inp.display_mode with
      | some m =>
        rw [hdm] at h
        cases h
        rfl
      | none =>
        rw [hdm] at h
        cases hcond : (inp.status == some "active" && inp.current_question_id.isSome) with
        | true =>
          rw [hcond] at h
          simp at h
        | false =>
          rw [hcond] at h
          simp only [Bool.false_eq_true, if_false] at h
          cases h
          rfl
    subst hd
    intro a ha hid
    obtain ⟨a0, ha0, rfl⟩ := List.mem_map.mp ha
    cases hbe : (a0.id == aid) with
    | true =>
      simp only [hbe, if_true]
      exact apply_updates_status inp a0 s hs
    | false =>
      simp only [hbe, Bool.false_eq_true, if_false] at hid
      exact absurd hid (by simpa using hbe)

/-- Database for the C3 counterexample: one activity with status
`'preparing'`. -/
def c3Db : Db :=
  ⟨[], [⟨1, "act", "preparing", none, none, none, some "none"⟩], [], [], 1, 2, 1, 1⟩

/-- The C3 counterexample request: status `"banana"`. -/
def c3Inp : ActivityUpdate := ⟨some "banana", none, none, none, none, none, none⟩

/-- Counterexample to C3 as stated: `update_activity` accepts the status
string `"banana"` and stores it, so the resulting activity's status is
outside `{'preparing', 'active', 'ended'}`. -/
theorem c3_counterexample :
    update_activity c3Db 1 c3Inp = .ok
      ⟨[], [⟨1, "act", "banana", none, none, none, some "none"⟩], [], [], 1, 2, 1, 1⟩
      [.activity_updated 1] 200 .successBody ∧
    ∀ a ∈ [(⟨1, "act", "banana", none, none, none, some "none"⟩ : Activity)],
      ¬(a.status = "preparing" ∨ a.status = "active" ∨ a.status = "ended") := by
  refine ⟨by decide, by decide⟩

/-- Witness for C3 (amended): the update part applied at a concrete request
setting status `"ended"`. -/
theorem c3_status_free_text_witness :
    (Activity.mk 1 "act" "ended" none none none (some "none")).status = "ended" :=
  c3_status_free_text.2 c3Db 1 ⟨some "ended", none, none, none, none, none, none⟩
    ⟨[], [⟨1, "act", "ended", none, none, none, some "none"⟩], [], [], 1, 2, 1, 1⟩
    [.activity_updated 1] 200 .successBody "ended" (by decide) rfl
    ⟨1, "act", "ended", none, none, none, some "none"⟩ (by decide) rfl

/-- Database for the C4 failing input: activity 1 exists with the default
display mode. -/
def c4Db : Db :=
  ⟨[], [⟨1, "act", "preparing", none, none, none, some "none"⟩], [], [], 1, 2, 1, 1⟩

/-- The C4 failing request: status `'active'` with `current_question_id` and
no `display_mode`. -/
def c4Inp : ActivityUpdate := ⟨some "active", some (some 2), none, none, none, none, none⟩

/-- C4 (code bug): on a request that sets status `'active'` and includes
`current_question_id` but not `display_mode`, the handler commits the UPDATE
and emits `activity_updated`, but then executes a query on the cursor it
closed at app.py:402, so it raises instead of emitting the `display_update`
event (with the stored display mode defaulting to `'question'`) and
returning `{'success': true}` as the claim — and the code's own comment at
app.py:421-423 — describe. -/
theorem c4_display_branch_raises :
    update_activity c4Db 1 c4Inp = .err
      ⟨[], [⟨1, "act", "active", some 2, none, none, some "none"⟩], [], [], 1, 2, 1, 1⟩
      [.activity_updated 1] := by
  decide

/-! ### Claim C2: one broadcast event per committed write -/

/-- A successful answer INSERT emits exactly the `answer_submitted` event. -/
lemma insert_answer_events (db : Db) (inp : AnswerInput) (d : Db) (ev : List Event)
    (st : Nat) (b : Body) (h : insert_answer db inp = .ok d ev st b) :
    ev = [.answer_submitted inp.activity_id inp.question_id] := by
  unfold insert_answer at h
  split at h
  · simp only [HResult.ok.injEq] at h
    exact h.2.1.symm
  · simp at h

/-- C2: every write endpoint that completes its database write emits exactly
one broadcast event of the corresponding name — `question_created`,
`question_updated`, `question_deleted`, `activity_created`,
`activity_updated`, `user_joined`, and `answer_submitted` on the 201 path of
`submit_answer` (the path that performs the INSERT; the 400 rejection
performs no write).  Stated over every invocation that returns normally. -/
theorem c2_writes_emit_one_event :
    (∀ (db : Db) (inp : QuestionInput) (d : Db) (ev : List Event) (st : Nat) (b : Body),
      create_question db inp = .ok d ev st b →
      ev.countP (fun e => e.name == "question_created") = 1) ∧
    (∀ (db : Db) (qid : Int) (inp : QuestionInput) (d : Db) (ev : List Event)
        (st : Nat) (b : Body),
      update_question db qid inp = .ok d ev st b →
      ev.countP (fun e => e.name == "question_updated") = 1) ∧
    (∀ (db : Db) (qid : Int) (d : Db) (ev : List Event) (st : Nat) (b : Body),
      delete_question db qid = .ok d ev st b →
      ev.countP (fun e => e.name == "question_deleted") = 1) ∧
    (∀ (db : Db) (inp : ActivityInput) (d : Db) (ev : List Event) (st : Nat) (b : Body),
      create_activity db inp = .ok d ev st b →
      ev.countP (fun e => e.name == "activity_created") = 1) ∧
    (∀ (db : Db) (aid : Int) (inp : ActivityUpdate) (d : Db) (ev : List Event)
        (st : Nat) (b : Body),
      update_activity db aid inp = .ok d ev st b →
      ev.countP (fun e => e.name == "activity_updated") = 1) ∧
    (∀ (db : Db) (inp : UserInput) (d : Db) (ev : List Event) (st : Nat) (b : Body),
      join_activity db inp = .ok d ev st b →
      ev.countP (fun e => e.name == "user_joined") = 1) ∧
    (∀ (db : Db) (inp : AnswerInput) (d : Db) (ev : List Event) (st : Nat) (b : Body),
      submit_answer db inp = .ok d ev st b → st = 201 →
      ev.countP (fun e => e.name == "answer_submitted") = 1) := by
  refine ⟨?_, ?_, ?_, ?_, ?_, ?_, ?_⟩
  · intro db inp d ev st b h
    unfold create_question at h
    split at h
    · simp at h
    · simp only [HResult.ok.injEq] at h
      obtain ⟨-, rfl, -, -⟩ := h
      rfl
  · intro db qid inp d ev st b h
    unfold update_question at h
    split at h
    · simp at h
    · simp only [HResult.ok.injEq] at h
      obtain ⟨-, rfl, -, -⟩ := h
      rfl
  · intro db qid d ev st b h
    unfold delete_question at h
    split at h
    · simp at h
    · simp only [HResult.ok.injEq] at h
      obtain ⟨-, rfl, -, -⟩ := h
      rfl
  · intro db inp d ev st b h
    unfold create_activity at h
    simp only [HResult.ok.injEq] at h
    obtain ⟨-, rfl, -, -⟩ := h
    rfl
  · intro db aid inp d ev st b h
    unfold update_activity at h
    dsimp only at h
    repeat' split at h
    all_goals
      first
      | (simp only [HResult.ok.injEq] at h
         obtain ⟨-, rfl, -, -⟩ := h
         rfl)
      | simp at h
  · intro db inp d ev st b h
    unfold join_activity at h
    split at h
    · simp only [HResult.ok.injEq] at h
      obtain ⟨-, rfl, -, -⟩ := h
      rfl
    · simp at h
  · intro db inp d ev st b h hst
    unfold submit_answer at h
    repeat' split at h
    all_goals
      first
      | (have hev := insert_answer_events db inp d ev st b h
         subst hev
         rfl)
      | (simp only [HResult.ok.injEq] at h
         obtain ⟨-, -, rfl, -⟩ := h
         exact absurd hst (by decide))

/-- Witness for C2: the `create_question` part applied at a concrete
request on the empty database. -/
theorem c2_writes_emit_one_event_witness :
    create_question emptyDb ⟨"text", "q?", [], none, .jnull⟩ = .ok
      { emptyDb with
          questions := [⟨1, "text", "q?", [], none, none⟩],
          nextQuestionId := 2 }
      [.question_created 1] 201 (.idBody 1) ∧
    ([Event.question_created 1].countP (fun e => e.name == "question_created")) = 1 :=
  ⟨by decide,
   c2_writes_emit_one_event.1 emptyDb ⟨"text", "q?", [], none, .jnull⟩
     { emptyDb with
         questions := [⟨1, "text", "q?", [], none, none⟩],
         nextQuestionId := 2 }
     [.question_created 1] 201 (.idBody 1) (by decide)⟩

/-! ### Claim C6: the activity groups endpoint -/

/-- C6: for an existing activity, `get_activity_groups` returns a stored
non-empty custom group list as-is; otherwise a positive `groups_count = k`
yields the generated default names `['第1組', ..., '第k組']` of length `k`;
otherwise the list is empty.  A missing activity yields 404
`Activity not found`.  A stored empty list (unreachable through the API,
which stores NULL instead of an empty array both on creation and on update)
is falsy in Python and counts as no custom list. -/
theorem c6_get_activity_groups (db : Db) (aid : Int) :
    (db.activities.find? (fun a => a.id == aid) = none →
      get_activity_groups db aid = .ok db [] 404 (.errorBody "Activity not found")) ∧
    (∀ act, db.activities.find? (fun a => a.id == aid) = some act →
      ((∀ l, act.groups = some l → l ≠ [] →
        get_activity_groups db aid = .ok db [] 200 (.groupsBody l act.groups_count)) ∧
       (∀ k : Int, (act.groups = none ∨ act.groups = some []) →
        act.groups_count = some k → 0 < k →
        get_activity_groups db aid
          = .ok db [] 200 (.groupsBody (defaultGroupNames k) (some k)) ∧
        (defaultGroupNames k).length = k.toNat) ∧
       ((act.groups = none ∨ act.groups = some []) →
        (act.groups_count = none ∨ ∃ k : Int, act.groups_count = some k ∧ k ≤ 0) →
        get_activity_groups db aid = .ok db [] 200 (.groupsBody [] act.groups_count)))) := by
  constructor
  · intro hf
    unfold get_activity_groups
    rw [hf]
  · intro act hf
    refine ⟨?_, ?_, ?_⟩
    · intro l hl hlne
      have hle : l.isEmpty = false := by
        cases l with
        | nil => exact absurd rfl hlne
        | cons x xs => rfl
      unfold get_activity_groups
      rw [hf]
      dsimp only
      rw [hl]
      dsimp only
      rw [hle]
      exact rfl
    · intro k hg hk hkpos
      have hkne : (k != 0) = true := bne_iff_ne.mpr (by omega)
      constructor
      · rcases hg with hg | hg <;>
          (unfold get_activity_groups
           rw [hf]
           dsimp only
           rw [hg, hk]
           dsimp only
           rw [hkne]) <;>
          exact rfl
      · simp [defaultGroupNames]
    · intro hg hkc
      rcases hkc with hk | ⟨k, hk, hkle⟩
      · rcases hg with hg | hg <;>
          (unfold get_activity_groups
           rw [hf]
           dsimp only
           rw [hg, hk])
        all_goals exact rfl
      · by_cases hk0 : k = 0
        · subst hk0
          rcases hg with hg | hg <;>
            (unfold get_activity_groups
             rw [hf]
             dsimp only
             rw [hg, hk])
          all_goals exact rfl
        · have hdef : defaultGroupNames k = [] := by
            simp [defaultGroupNames, Int.toNat_of_nonpos hkle]
          rcases hg with hg | hg <;>
            (unfold get_activity_groups
             rw [hf]
             dsimp only
             rw [hg, hk]
             dsimp only
             rw [if_pos (bne_iff_ne.mpr hk0), hdef])
          all_goals exact rfl

/-- Witness for C6: a stored custom group list is returned as-is. -/
theorem c6_get_activity_groups_witness :
    get_activity_groups
      ⟨[], [⟨1, "a", "preparing", none, some 5, some ["紅隊", "藍隊"], some "none"⟩],
       [], [], 1, 2, 1, 1⟩ 1
      = .ok ⟨[], [⟨1, "a", "preparing", none, some 5, some ["紅隊", "藍隊"], some "none"⟩],
         [], [], 1, 2, 1, 1⟩ [] 200 (.groupsBody ["紅隊", "藍隊"] (some 5)) :=
  ((c6_get_activity_groups
      ⟨[], [⟨1, "a", "preparing", none, some 5, some ["紅隊", "藍隊"], some "none"⟩],
       [], [], 1, 2, 1, 1⟩ 1).2
    ⟨1, "a", "preparing", none, some 5, some ["紅隊", "藍隊"], some "none"⟩
    (by decide)).1 ["紅隊", "藍隊"] rfl (by decide)

/-! ### Claim C10: the activity detail endpoint -/

/-- The joined user columns of one answer row, looked up by the answer's
`user_id` (the join key `a.user_id = u.id` of app.py:345, `id` being the
primary key of `users`). -/
def join_user (db : Db) (x : Answer) : AnswerRow :=
  match db.users.find? (fun u => x.user_id == some u.id) with
  | some u => ⟨x, u.name, u.group_name⟩
  | none => ⟨x, "", none⟩

lemma users_filter_of_nodup (us : List User) (t : Option Int)
    (hnd : (us.map User.id).Nodup)
    (u : User) (hu : u ∈ us) (ht : t = some u.id) :
    us.filter (fun v => t == some v.id) = [u] ∧
    us.find? (fun v => t == some v.id) = some u := by
  induction us with
  | nil => cases hu
  | cons v vs ih =>
    rw [List.map_cons, List.nodup_cons] at hnd
    obtain ⟨hvn, hnd2⟩ := hnd
    by_cases hv : (t == some v.id) = true
    · have hveq : t = some v.id := by simpa using hv
      have huid : u.id = v.id := by
        rw [hveq] at ht
        injection ht.symm
      have huv : u = v := by
        rcases List.mem_cons.mp hu with h | h
        · exact h
        · exact absurd (huid ▸ List.mem_map_of_mem User.id h) hvn
      subst huv
      have hnone : vs.filter (fun v => t == some v.id) = [] := by
        rw [List.filter_eq_nil_iff]
        intro w hw hpw
        have hweq : t = some w.id := by simpa using hpw
        have : w.id = u.id := by
          rw [hveq] at hweq
          injection hweq.symm
        exact hvn (this ▸ List.mem_map_of_mem User.id hw)
      exact ⟨by simp [List.filter_cons, hv, hnone],
             by simp [List.find?_cons, hv]⟩
    · have huv : u ∈ vs := by
        rcases List.mem_cons.mp hu with h | h
        · subst h
          exact absurd (by simpa using ht) hv
        · exact h
      obtain ⟨hfil, hfind⟩ := ih hnd2 huv
      have hvf : (t == some v.id) = false := by simpa using hv
      exact ⟨by simp [List.filter_cons, hvf, hfil],
             by simp [List.find?_cons, hvf, hfind]⟩

lemma flatMap_eq_map_of_forall {α β : Type} (l : List α) (f : α → List β) (g : α → β)
    (h : ∀ x ∈ l, f x = [g x]) : l.flatMap f = l.map g := by
  induction l with
  | nil => rfl
  | cons x xs ih =>
    rw [List.flatMap_cons, h x (List.mem_cons_self _ _),
        ih (fun y hy => h y (List.mem_cons_of_mem _ hy)), List.map_cons]
    rfl

/-- C10: `get_activity` answers 404 `Activity not found` when the row is
missing; otherwise it returns the activity together with exactly the users
of that activity and exactly that activity's answers, each joined with its
answering user's name and group.  The hypotheses are the primary-key
uniqueness of `users.id` and the `answers.user_id` foreign key, both
enforced by the schema. -/
theorem c10_get_activity (db : Db) (aid : Int) :
    (db.activities.find? (fun a => a.id == aid) = none →
      get_activity db aid = .ok db [] 404 (.errorBody "Activity not found")) ∧
    (∀ act, db.activities.find? (fun a => a.id == aid) = some act →
      (db.users.map User.id).Nodup →
      (∀ x ∈ db.answers, x.activity_id = some aid →
        ∃ u ∈ db.users, x.user_id = some u.id) →
      get_activity db aid = .ok db [] 200 (.activityBody act
        (db.users.filter (fun u => u.activity_id == some aid))
        ((db.answers.filter (fun x => x.activity_id == some aid)).map (join_user db)))) := by
  constructor
  · intro hf
    unfold get_activity
    rw [hf]
  · intro act hf hnd hfk
    unfold get_activity
    rw [hf]
    dsimp only
    have hjoin : (db.answers.filter (fun x => x.activity_id == some aid)).flatMap
        (fun x => (db.users.filter (fun u => x.user_id == some u.id)).map
          (fun u => AnswerRow.mk x u.name u.group_name))
        = (db.answers.filter (fun x => x.activity_id == some aid)).map (join_user db) := by
      apply flatMap_eq_map_of_forall
      intro x hx
      have hxa : x ∈ db.answers := (List.mem_filter.mp hx).1
      have hxaid : x.activity_id = some aid := by
        have h2 := (List.mem_filter.mp hx).2
        simpa using h2
      obtain ⟨u, hu, huid⟩ := hfk x hxa hxaid
      obtain ⟨hfil, hfind⟩ := users_filter_of_nodup db.users x.user_id hnd u hu huid
      rw [hfil]
      unfold join_user
      rw [hfind]
      exact rfl
    rw [hjoin]

/-- Witness for C10: a concrete activity with one user and one answer. -/
def c10wDb : Db :=
  ⟨[], [⟨1, "a", "preparing", none, none, none, some "none"⟩],
   [⟨1, some 1, "Alice", some "第1組"⟩],
   [⟨1, some 1, some 1, some 1, some "hi"⟩], 1, 2, 2, 2⟩

/-- Witness for C10: the theorem applied at `c10wDb`. -/
theorem c10_get_activity_witness :
    get_activity c10wDb 1 = .ok c10wDb [] 200 (.activityBody
      ⟨1, "a", "preparing", none, none, none, some "none"⟩
      (c10wDb.users.filter (fun u => u.activity_id == some 1))
      ((c10wDb.answers.filter (fun x => x.activity_id == some 1)).map (join_user c10wDb))) :=
  (c10_get_activity c10wDb 1).2
    ⟨1, "a", "preparing", none, none, none, some "none"⟩
    (by decide) (by decide) (by decide)

end LiveQuiz
